import Mathlib

/-!
Shallow embedding of WeatherPulse's `src/exit_manager.py`.

The core is `ExitManager`: `start_monitor` validates the entry fill price,
computes stop/take-profit levels, places a protective stop-sell at the broker
and spawns `_loop`, a polling thread that each cycle (a) queries the stop
order's status and terminates if it is "filled", then (b) fetches a reference
quote and, when it reaches the take-profit level, submits an exit sell,
attempts to cancel the stop, and terminates.

Modelling choices:
  * Prices are exact rationals; Python's `round(x, 2)` becomes `round2`
    (round half to even at cent precision on the exact value).
  * Each network call's outcome is an input: a `CycleEnv` per polling cycle
    records what the broker/quote endpoints would return, with `none`
    standing for a raised exception where the Python catches one
    (`get_order` failure, unavailable quote, raising `cancel_order`), and a
    `Bool`/status code for outcomes the Python inspects.
  * One polling cycle is the pure `step`; a finite prefix of the infinite
    polling loop is `run` over a list of `CycleEnv`s (the loop exits when
    `done` is set, mirroring `while not st["done"]`).
  * Calls the code performs are recorded as an `Event` trace so that
    "submits exactly one order" style properties are statable.
-/

namespace WeatherPulse

/-- Round a rational to the nearest integer, ties to even — the rounding rule
Python's builtin `round` applies to the exact decimal value. -/
def roundHalfEven (x : ℚ) : ℤ :=
  if x - ⌊x⌋ < 1/2 then ⌊x⌋
  else if 1/2 < x - ⌊x⌋ then ⌊x⌋ + 1
  else if ⌊x⌋ % 2 = 0 then ⌊x⌋ else ⌊x⌋ + 1

/-- Python's `round(x, 2)` on the exact value: cents, half to even. -/
def round2 (x : ℚ) : ℚ := (roundHalfEven (x * 100) : ℚ) / 100

/-- A parsed Tradier quote record: the `bid`, `ask` and `last` fields after
`float(q.get(key, 0) or 0)` coercion (missing/null fields are 0). -/
structure TradierQuote where
  bid : ℚ
  ask : ℚ
  last : ℚ
  deriving DecidableEq

/-- `TradierQuotes.mid_or_last`. Input `none` covers every path that yields
`None` before the price computation: transport error, non-2xx status, parse
failure, or an empty `quotes.quote` payload. -/
def mid_or_last (resp : Option TradierQuote) : Option ℚ :=
  match resp with
  | none => none
  | some q =>
    if 0 < q.bid ∧ 0 < q.ask then some (round2 ((q.bid + q.ask) / 2))
    else if 0 < q.last then some (round2 q.last)
    else none

/-- The mutable `state` dict threaded through `ExitManager._loop`. -/
structure LoopState where
  symbol : String
  qty : ℕ
  fill : ℚ
  tp_price : ℚ
  stop_price : ℚ
  stop_id : Option ℕ
  tp_filled : Bool
  done : Bool
  use_mkt_tp : Bool
  deriving DecidableEq

/-- Outcomes of the network calls one polling cycle may perform.
`stopStatus = none` means `get_order` raised (caught by the bare except);
`some s` means it returned status string `s`. `quote` is `mid_or_last`'s
result. `sellOk = false` means the exit-sell submission raised.
`cancelResult = none` means `cancel_order` raised (transport failure);
`some c` means the DELETE returned HTTP status code `c`. -/
structure CycleEnv where
  stopStatus : Option String
  quote : Option ℚ
  sellOk : Bool
  cancelResult : Option ℕ
  deriving DecidableEq

/-- Broker calls observable in one cycle, in program order. -/
inductive Event where
  | queryStop (oid : ℕ)
  | sellMarket (sym : String) (qty : ℕ) (ok : Bool)
  | sellLimit (sym : String) (qty : ℕ) (px : ℚ) (ok : Bool)
  | cancelAttempt (oid : ℕ) (result : Option ℕ)
  deriving DecidableEq

/-- The exit-sell submission the TP branch performs: market when
`use_mkt_tp`, else limit at the take-profit price. -/
def sellEvent (st : LoopState) (ok : Bool) : Event :=
  if st.use_mkt_tp then .sellMarket st.symbol st.qty ok
  else .sellLimit st.symbol st.qty st.tp_price ok

/-- Part (b) of `_loop`'s cycle: `px = mid_or_last(...) or 0.0`; when
`px >= tp_price and not tp_filled`, submit the exit sell inside a try block —
on success set `tp_filled`, then (when a stop id exists) call `cancel_order`
and set `done`; any raise inside the block is swallowed, so a raising
`cancel_order` leaves `done` unset (with `tp_filled` already set). -/
def tpPhase (st : LoopState) (e : CycleEnv) : LoopState × List Event :=
  if st.tp_price ≤ e.quote.getD 0 ∧ st.tp_filled = false then
    if e.sellOk then
      match st.stop_id with
      | some oid =>
        match e.cancelResult with
        | some c =>
          ({ st with tp_filled := true, done := true },
            [sellEvent st true, .cancelAttempt oid (some c)])
        | none =>
          ({ st with tp_filled := true },
            [sellEvent st true, .cancelAttempt oid none])
      | none => ({ st with tp_filled := true, done := true }, [sellEvent st true])
    else (st, [sellEvent st false])
  else (st, [])

/-- One full cycle of `_loop`: part (a) queries the stop order when a stop id
exists and terminates on status "filled" (any other status or a raising
`get_order` falls through); part (b) is the TP check. -/
def step (st : LoopState) (e : CycleEnv) : LoopState × List Event :=
  match st.stop_id with
  | some oid =>
    if e.stopStatus = some "filled" then ({ st with done := true }, [.queryStop oid])
    else ((tpPhase st e).1, .queryStop oid :: (tpPhase st e).2)
  | none => tpPhase st e

/-- A finite prefix of `while not st["done"]`: consume one `CycleEnv` per
cycle, stopping as soon as `done` is set. -/
def run (st : LoopState) : List CycleEnv → LoopState × List Event
  | [] => (st, [])
  | e :: es =>
    if st.done then (st, [])
    else ((run (step st e).1 es).1, (step st e).2 ++ (run (step st e).1 es).2)

/-- The spec's lifecycle states (§4.4). -/
inductive LState where
  | active
  | takeProfitFilled
  | stopFilled
  | aborted
  deriving DecidableEq

/-- Read the spec's lifecycle state off the loop's flag pair: `done` with
`tp_filled` reads `takeProfitFilled`, `done` without it reads `stopFilled`.
The pair is everything the state dict records about a terminal's cause: in
the plain paths the stop branch terminates with `tp_filled` still false and
the TP branch sets it, but after a cycle in which the exit sell succeeded
and `cancel_order` raised, `tp_filled` is already true, so a stop fill
detected in a later cycle also reads `takeProfitFilled`. -/
def lifecycle (st : LoopState) : LState :=
  if st.done then (if st.tp_filled then .takeProfitFilled else .stopFilled)
  else .active

/-- Failure of the initial `place_stop_sell`: `raise_for_status` (broker
rejected) or a transport/timeout raise. Both propagate out of
`start_monitor` unchanged. -/
inductive BrokerErr where
  | rejected
  | unavailable
  deriving DecidableEq

/-- Synchronous failures of `start_monitor`: the failed assert on the fill
price, or a propagated broker error from stop placement. -/
inductive StartErr where
  | invalidInput
  | broker (e : BrokerErr)
  deriving DecidableEq

/-- The dict `start_monitor` returns on success. -/
structure Handle where
  ok : Bool
  stop_id : Option ℕ
  tp_level : ℚ
  stop_level : ℚ
  deriving DecidableEq

/-- What one call of `start_monitor` did: its synchronous result, whether a
stop-sell submission was attempted, and the initial state handed to the
spawned `_loop` thread (when one was started). -/
structure StartOutcome where
  result : Except StartErr Handle
  stopSubmitted : Bool
  monitor : Option LoopState

/-- `ExitManager.start_monitor`. The assert `fill_price and fill_price > 0`
(on a number) is exactly `0 < fill_price`; it runs before any broker call.
`stopResp` is `place_stop_sell`'s outcome; its `id` field may be absent
(`stop.get("id")` is then `None`, modelled `Option ℕ`). -/
def start_monitor (symbol : String) (qty : ℕ) (fill_price : ℚ)
    (take_profit_mult : ℚ) (stop_mult : ℚ) (use_market_for_tp : Bool)
    (stopResp : Except BrokerErr (Option ℕ)) : StartOutcome :=
  if 0 < fill_price then
    let stop_price := max (1/100) (round2 (fill_price * stop_mult))
    let tp_price := round2 (fill_price * take_profit_mult)
    match stopResp with
    | .error e => ⟨.error (.broker e), true, none⟩
    | .ok stop_id =>
      ⟨.ok ⟨true, stop_id, tp_price, stop_price⟩, true,
        some ⟨symbol, qty, fill_price, tp_price, stop_price, stop_id,
          false, false, use_market_for_tp⟩⟩
  else ⟨.error .invalidInput, false, none⟩

/-- Event is a successful exit-sell submission. -/
def isSellSuccess : Event → Bool
  | .sellMarket _ _ ok => ok
  | .sellLimit _ _ _ ok => ok
  | _ => false

/-- Event is an exit-sell submission attempt (successful or not). -/
def isSellEvent : Event → Bool
  | .sellMarket _ _ _ => true
  | .sellLimit _ _ _ _ => true
  | _ => false

/-- Event is a `cancel_order` attempt. -/
def isCancelEvent : Event → Bool
  | .cancelAttempt _ _ => true
  | _ => false

/-- Event is a `get_order` poll of the stop order. -/
def isQueryEvent : Event → Bool
  | .queryStop _ => true
  | _ => false

/-- Number of successful exit-sell submissions in a trace. -/
def countSellSuccess (evs : List Event) : ℕ := (evs.filter isSellSuccess).length

/-- Number of cancellation attempts in a trace. -/
def countCancel (evs : List Event) : ℕ := (evs.filter isCancelEvent).length

/-! ### Structural lemmas about one polling cycle -/

@[simp]
theorem isSellSuccess_sellEvent (st : LoopState) (b : Bool) :
    isSellSuccess (sellEvent st b) = b := by
  unfold sellEvent; split <;> rfl

@[simp]
theorem isCancelEvent_sellEvent (st : LoopState) (b : Bool) :
    isCancelEvent (sellEvent st b) = false := by
  unfold sellEvent; split <;> rfl

@[simp]
theorem isQueryEvent_sellEvent (st : LoopState) (b : Bool) :
    isQueryEvent (sellEvent st b) = false := by
  unfold sellEvent; split <;> rfl

@[simp]
theorem isSellSuccess_queryStop (o : ℕ) : isSellSuccess (Event.queryStop o) = false := rfl

@[simp]
theorem isSellSuccess_cancelAttempt (o : ℕ) (r : Option ℕ) :
    isSellSuccess (Event.cancelAttempt o r) = false := rfl

@[simp]
theorem isCancelEvent_queryStop (o : ℕ) : isCancelEvent (Event.queryStop o) = false := rfl

@[simp]
theorem isCancelEvent_cancelAttempt (o : ℕ) (r : Option ℕ) :
    isCancelEvent (Event.cancelAttempt o r) = true := rfl

@[simp]
theorem isQueryEvent_queryStop (o : ℕ) : isQueryEvent (Event.queryStop o) = true := rfl

@[simp]
theorem isQueryEvent_cancelAttempt (o : ℕ) (r : Option ℕ) :
    isQueryEvent (Event.cancelAttempt o r) = false := rfl

theorem countSellSuccess_append (a b : List Event) :
    countSellSuccess (a ++ b) = countSellSuccess a + countSellSuccess b := by
  simp [countSellSuccess, List.filter_append]

theorem run_of_done (st : LoopState) (envs : List CycleEnv) (h : st.done = true) :
    run st envs = (st, []) := by
  cases envs with
  | nil => rfl
  | cons e es => unfold run; simp [h]

theorem run_cons (st : LoopState) (e : CycleEnv) (es : List CycleEnv)
    (hd : st.done = false) :
    run st (e :: es) =
      ((run (step st e).1 es).1, (step st e).2 ++ (run (step st e).1 es).2) := by
  conv_lhs => unfold run
  rw [if_neg (by rw [hd]; exact Bool.noConfusion)]

theorem step_some (st : LoopState) (e : CycleEnv) (oid : ℕ)
    (hid : st.stop_id = some oid) :
    step st e =
      if e.stopStatus = some "filled" then ({ st with done := true }, [Event.queryStop oid])
      else ((tpPhase st e).1, Event.queryStop oid :: (tpPhase st e).2) := by
  unfold step; rw [hid]

theorem step_none (st : LoopState) (e : CycleEnv) (hid : st.stop_id = none) :
    step st e = tpPhase st e := by
  unfold step; rw [hid]

theorem tpPhase_not_triggered (st : LoopState) (e : CycleEnv)
    (h : ¬ (st.tp_price ≤ e.quote.getD 0 ∧ st.tp_filled = false)) :
    tpPhase st e = (st, []) := by
  unfold tpPhase; rw [if_neg h]

theorem tpPhase_sell_fail (st : LoopState) (e : CycleEnv)
    (h : st.tp_price ≤ e.quote.getD 0 ∧ st.tp_filled = false) (hs : e.sellOk = false) :
    tpPhase st e = (st, [sellEvent st false]) := by
  unfold tpPhase; rw [if_pos h, hs]; simp

theorem tpPhase_sell_ok_cancel_ret (st : LoopState) (e : CycleEnv) (oid : ℕ) (c : ℕ)
    (h : st.tp_price ≤ e.quote.getD 0 ∧ st.tp_filled = false) (hs : e.sellOk = true)
    (hid : st.stop_id = some oid) (hc : e.cancelResult = some c) :
    tpPhase st e = ({ st with tp_filled := true, done := true },
      [sellEvent st true, Event.cancelAttempt oid (some c)]) := by
  unfold tpPhase; rw [if_pos h, hs, hid, hc]; rfl

theorem tpPhase_sell_ok_cancel_raise (st : LoopState) (e : CycleEnv) (oid : ℕ)
    (h : st.tp_price ≤ e.quote.getD 0 ∧ st.tp_filled = false) (hs : e.sellOk = true)
    (hid : st.stop_id = some oid) (hc : e.cancelResult = none) :
    tpPhase st e = ({ st with tp_filled := true },
      [sellEvent st true, Event.cancelAttempt oid none]) := by
  unfold tpPhase; rw [if_pos h, hs, hid, hc]; rfl

theorem tpPhase_sell_ok_no_id (st : LoopState) (e : CycleEnv)
    (h : st.tp_price ≤ e.quote.getD 0 ∧ st.tp_filled = false) (hs : e.sellOk = true)
    (hid : st.stop_id = none) :
    tpPhase st e = ({ st with tp_filled := true, done := true }, [sellEvent st true]) := by
  unfold tpPhase; rw [if_pos h, hs, hid]; rfl

theorem tpPhase_stop_id (st : LoopState) (e : CycleEnv) :
    (tpPhase st e).1.stop_id = st.stop_id := by
  by_cases h : st.tp_price ≤ e.quote.getD 0 ∧ st.tp_filled = false
  · cases hs : e.sellOk with
    | false => rw [tpPhase_sell_fail st e h hs]
    | true =>
      rcases hid : st.stop_id with _ | oid
      · rw [tpPhase_sell_ok_no_id st e h hs hid]; exact hid
      · rcases hc : e.cancelResult with _ | c
        · rw [tpPhase_sell_ok_cancel_raise st e oid h hs hid hc]; exact hid
        · rw [tpPhase_sell_ok_cancel_ret st e oid c h hs hid hc]; exact hid
  · rw [tpPhase_not_triggered st e h]

theorem tpPhase_tp_filled_mono (st : LoopState) (e : CycleEnv) (h : st.tp_filled = true) :
    (tpPhase st e).1.tp_filled = true := by
  have hng : ¬ (st.tp_price ≤ e.quote.getD 0 ∧ st.tp_filled = false) := by
    rintro ⟨-, hf⟩; rw [h] at hf; exact Bool.noConfusion hf
  rw [tpPhase_not_triggered st e hng]; exact h

theorem tpPhase_no_sell_of_tp_filled (st : LoopState) (e : CycleEnv)
    (h : st.tp_filled = true) : countSellSuccess (tpPhase st e).2 = 0 := by
  have hng : ¬ (st.tp_price ≤ e.quote.getD 0 ∧ st.tp_filled = false) := by
    rintro ⟨-, hf⟩; rw [h] at hf; exact Bool.noConfusion hf
  rw [tpPhase_not_triggered st e hng]; rfl

theorem tpPhase_tp_false_no_sell (st : LoopState) (e : CycleEnv)
    (h : (tpPhase st e).1.tp_filled = false) : countSellSuccess (tpPhase st e).2 = 0 := by
  by_cases htr : st.tp_price ≤ e.quote.getD 0 ∧ st.tp_filled = false
  · cases hs : e.sellOk with
    | false => rw [tpPhase_sell_fail st e htr hs]; simp [countSellSuccess, List.filter]
    | true =>
      exfalso
      rcases hid : st.stop_id with _ | oid
      · rw [tpPhase_sell_ok_no_id st e htr hs hid] at h
        exact Bool.noConfusion h
      · rcases hc : e.cancelResult with _ | c
        · rw [tpPhase_sell_ok_cancel_raise st e oid htr hs hid hc] at h
          exact Bool.noConfusion h
        · rw [tpPhase_sell_ok_cancel_ret st e oid c htr hs hid hc] at h
          exact Bool.noConfusion h
  · rw [tpPhase_not_triggered st e htr]; rfl

theorem tpPhase_sell_le_one (st : LoopState) (e : CycleEnv) :
    countSellSuccess (tpPhase st e).2 ≤ 1 := by
  by_cases htr : st.tp_price ≤ e.quote.getD 0 ∧ st.tp_filled = false
  · cases hs : e.sellOk with
    | false => rw [tpPhase_sell_fail st e htr hs]; simp [countSellSuccess, List.filter]
    | true =>
      rcases hid : st.stop_id with _ | oid
      · rw [tpPhase_sell_ok_no_id st e htr hs hid]
        simp [countSellSuccess, List.filter_cons]
      · rcases hc : e.cancelResult with _ | c
        · rw [tpPhase_sell_ok_cancel_raise st e oid htr hs hid hc]
          simp [countSellSuccess, List.filter_cons]
        · rw [tpPhase_sell_ok_cancel_ret st e oid c htr hs hid hc]
          simp [countSellSuccess, List.filter_cons]
  · rw [tpPhase_not_triggered st e htr]; simp [countSellSuccess]

theorem step_stop_id (st : LoopState) (e : CycleEnv) :
    (step st e).1.stop_id = st.stop_id := by
  rcases hid : st.stop_id with _ | oid
  · rw [step_none st e hid, tpPhase_stop_id]; exact hid
  · rw [step_some st e oid hid]
    by_cases hf : e.stopStatus = some "filled"
    · rw [if_pos hf]; exact hid
    · rw [if_neg hf, tpPhase_stop_id]; exact hid

theorem step_tp_filled_mono (st : LoopState) (e : CycleEnv) (h : st.tp_filled = true) :
    (step st e).1.tp_filled = true := by
  cases hid : st.stop_id with
  | none => rw [step_none st e hid]; exact tpPhase_tp_filled_mono st e h
  | some oid =>
    rw [step_some st e oid hid]
    by_cases hf : e.stopStatus = some "filled"
    · rw [if_pos hf]; exact h
    · rw [if_neg hf]; exact tpPhase_tp_filled_mono st e h

theorem step_no_sell_of_tp_filled (st : LoopState) (e : CycleEnv)
    (h : st.tp_filled = true) : countSellSuccess (step st e).2 = 0 := by
  cases hid : st.stop_id with
  | none => rw [step_none st e hid]; exact tpPhase_no_sell_of_tp_filled st e h
  | some oid =>
    rw [step_some st e oid hid]
    by_cases hf : e.stopStatus = some "filled"
    · rw [if_pos hf]; rfl
    · rw [if_neg hf]
      have h2 := tpPhase_no_sell_of_tp_filled st e h
      simpa [countSellSuccess, List.filter_cons] using h2

theorem step_tp_false_no_sell (st : LoopState) (e : CycleEnv)
    (h : (step st e).1.tp_filled = false) : countSellSuccess (step st e).2 = 0 := by
  cases hid : st.stop_id with
  | none =>
    rw [step_none st e hid] at h ⊢
    exact tpPhase_tp_false_no_sell st e h
  | some oid =>
    rw [step_some st e oid hid] at h ⊢
    by_cases hf : e.stopStatus = some "filled"
    · rw [if_pos hf]; rfl
    · rw [if_neg hf] at h ⊢
      have h2 := tpPhase_tp_false_no_sell st e h
      simpa [countSellSuccess, List.filter_cons] using h2

theorem step_sell_count_le_one (st : LoopState) (e : CycleEnv) :
    countSellSuccess (step st e).2 ≤ 1 := by
  cases hid : st.stop_id with
  | none => rw [step_none st e hid]; exact tpPhase_sell_le_one st e
  | some oid =>
    rw [step_some st e oid hid]
    by_cases hf : e.stopStatus = some "filled"
    · rw [if_pos hf]; simp [countSellSuccess, List.filter_cons]
    · rw [if_neg hf]
      have h2 := tpPhase_sell_le_one st e
      simpa [countSellSuccess, List.filter_cons] using h2

theorem run_no_sell_of_tp_filled (envs : List CycleEnv) : ∀ st : LoopState,
    st.tp_filled = true → countSellSuccess (run st envs).2 = 0 := by
  induction envs with
  | nil => intro st _; rfl
  | cons e es ih =>
    intro st h
    unfold run
    by_cases hd : st.done = true
    · simp [hd, countSellSuccess]
    · simp only [hd, Bool.false_eq_true, if_false]
      rw [countSellSuccess_append, step_no_sell_of_tp_filled st e h,
        ih (step st e).1 (step_tp_filled_mono st e h)]

theorem run_sell_le_one (envs : List CycleEnv) : ∀ st : LoopState,
    countSellSuccess (run st envs).2 ≤ 1 := by
  induction envs with
  | nil => intro st; simp [run, countSellSuccess]
  | cons e es ih =>
    intro st
    unfold run
    by_cases hd : st.done = true
    · simp [hd, countSellSuccess]
    · simp only [hd, Bool.false_eq_true, if_false]
      rw [countSellSuccess_append]
      cases h2 : (step st e).1.tp_filled with
      | true =>
        have := run_no_sell_of_tp_filled es (step st e).1 h2
        have hle := step_sell_count_le_one st e
        omega
      | false =>
        have := step_tp_false_no_sell st e h2
        have hle := ih (step st e).1
        omega

/-! ### Claim theorems -/

/-- C1 counterexample: a two-cycle run from a fresh monitor state. Cycle 1:
the stop reads "new", the quote is at the take-profit level, the exit sell
succeeds and `cancel_order` raises — the monitor keeps polling with
`tp_filled` set. Cycle 2: the stop order's status is queried and found
"filled". The monitor terminates, but a take-profit exit order WAS submitted
during the run, and the `done`/`tp_filled` flag pair of the terminal state
reads `takeProfitFilled`, not `stopFilled`: the claim's "transitions to
StopFilled ... without ever submitting a take-profit exit order" is false
for this cycle, which its "every monitoring cycle" covers. -/
theorem stop_fill_after_cancel_raise_reads_takeProfit :
    (run ⟨"S", 1, 2, 1, 1, some 7, false, false, true⟩
      [⟨some "new", some 2, true, none⟩,
        ⟨some "filled", none, true, none⟩]).1.done = true ∧
    (run ⟨"S", 1, 2, 1, 1, some 7, false, false, true⟩
      [⟨some "new", some 2, true, none⟩,
        ⟨some "filled", none, true, none⟩]).1.tp_filled = true ∧
    lifecycle (run ⟨"S", 1, 2, 1, 1, some 7, false, false, true⟩
      [⟨some "new", some 2, true, none⟩,
        ⟨some "filled", none, true, none⟩]).1 = LState.takeProfitFilled ∧
    ¬ lifecycle (run ⟨"S", 1, 2, 1, 1, some 7, false, false, true⟩
      [⟨some "new", some 2, true, none⟩,
        ⟨some "filled", none, true, none⟩]).1 = LState.stopFilled ∧
    countSellSuccess (run ⟨"S", 1, 2, 1, 1, some 7, false, false, true⟩
      [⟨some "new", some 2, true, none⟩,
        ⟨some "filled", none, true, none⟩]).2 = 1 ∧
    (run ⟨"S", 1, 2, 1, 1, some 7, false, false, true⟩
      [⟨some "new", some 2, true, none⟩,
        ⟨some "filled", none, true, none⟩]).2 =
      [Event.queryStop 7, Event.sellMarket "S" 1 true, Event.cancelAttempt 7 none,
        Event.queryStop 7] := by
  have h1 : step ⟨"S", 1, 2, 1, 1, some 7, false, false, true⟩
      ⟨some "new", some 2, true, none⟩ =
      (⟨"S", 1, 2, 1, 1, some 7, true, false, true⟩,
        [Event.queryStop 7, Event.sellMarket "S" 1 true,
          Event.cancelAttempt 7 none]) := by
    rw [step_some _ _ 7 rfl, if_neg (by simp),
      tpPhase_sell_ok_cancel_raise _ _ 7 (by constructor <;> norm_num) rfl rfl rfl]
    rfl
  have h2 : step ⟨"S", 1, 2, 1, 1, some 7, true, false, true⟩
      ⟨some "filled", none, true, none⟩ =
      (⟨"S", 1, 2, 1, 1, some 7, true, true, true⟩, [Event.queryStop 7]) := by
    rw [step_some _ _ 7 rfl, if_pos rfl]
  rw [run_cons _ _ _ rfl, h1, run_cons _ _ _ rfl, h2, run_of_done _ _ rfl]
  refine ⟨rfl, rfl, rfl, by decide, ?_, rfl⟩
  simp [countSellSuccess, List.filter_cons, isSellSuccess]

/-- C1 (amended): in any polling cycle in which the stop order's status is
queried and found "filled", the monitor sets `done` in that cycle before the
take-profit check runs — the status query is the cycle's only broker call
whatever the quote holds, and (the ordering clause) in EVERY cycle, whatever
that cycle's outcomes, the stop query is the first call made — and no call
of any kind happens in any later cycle; `tp_filled` is left as it was. When
no take-profit submission has succeeded in an earlier cycle (in particular
on the very first poll), the terminal reads `StopFilled` and no take-profit
order was ever submitted. But when the stop fills after a cycle in which the
exit sell succeeded and its cancellation raised, the same detection
terminates with `tp_filled` already true and the terminal reads
`takeProfitFilled`. -/
theorem stop_fill_detected_terminates (st : LoopState) (e : CycleEnv) (oid : ℕ)
    (rest : List CycleEnv) (hid : st.stop_id = some oid)
    (hfl : e.stopStatus = some "filled") :
    (step st e).1.done = true ∧
    (step st e).2 = [Event.queryStop oid] ∧
    run (step st e).1 rest = ((step st e).1, []) ∧
    (step st e).1.tp_filled = st.tp_filled ∧
    (st.tp_filled = false → lifecycle (step st e).1 = LState.stopFilled) ∧
    (st.tp_filled = true → lifecycle (step st e).1 = LState.takeProfitFilled) ∧
    (∀ e2 : CycleEnv, ∃ tl : List Event,
      (step st e2).2 = Event.queryStop oid :: tl) := by
  have hs : step st e = ({ st with done := true }, [Event.queryStop oid]) := by
    rw [step_some st e oid hid, if_pos hfl]
  rw [hs]
  refine ⟨rfl, rfl, run_of_done _ rest rfl, rfl, ?_, ?_, ?_⟩
  · intro h; simp [lifecycle, h]
  · intro h; simp [lifecycle, h]
  · intro e2
    rw [step_some st e2 oid hid]
    by_cases hf2 : e2.stopStatus = some "filled"
    · exact ⟨[], by rw [if_pos hf2]⟩
    · exact ⟨(tpPhase st e2).2, by rw [if_neg hf2]⟩

/-- C2 counterexample: cycle with the stop order still open, quote at the
take-profit level, exit-sell submission succeeding, and `cancel_order`
raising (a transport failure). The try block's exception handler skips
`st["done"] = True`: the sell went through (`tp_filled` is set) but the
monitor does NOT transition to `TakeProfitFilled` — it stays active. This
falsifies the claim that cancellation failures of any kind never block the
transition. -/
theorem cancel_raise_blocks_tp_transition :
    (step ⟨"S", 1, 2, 1, 1, some 7, false, false, true⟩
        ⟨some "new", some 2, true, none⟩).1.tp_filled = true ∧
    (step ⟨"S", 1, 2, 1, 1, some 7, false, false, true⟩
        ⟨some "new", some 2, true, none⟩).1.done = false ∧
    lifecycle (step ⟨"S", 1, 2, 1, 1, some 7, false, false, true⟩
        ⟨some "new", some 2, true, none⟩).1 = LState.active ∧
    (step ⟨"S", 1, 2, 1, 1, some 7, false, false, true⟩
        ⟨some "new", some 2, true, none⟩).2 =
      [Event.queryStop 7, Event.sellMarket "S" 1 true, Event.cancelAttempt 7 none] := by
  have hs : step ⟨"S", 1, 2, 1, 1, some 7, false, false, true⟩
      ⟨some "new", some 2, true, none⟩ =
      (⟨"S", 1, 2, 1, 1, some 7, true, false, true⟩,
        [Event.queryStop 7, Event.sellMarket "S" 1 true, Event.cancelAttempt 7 none]) := by
    rw [step_some _ _ 7 rfl, if_neg (by simp)]
    rw [tpPhase_sell_ok_cancel_raise _ _ 7 (by constructor <;> norm_num) rfl rfl rfl]
    rfl
  rw [hs]
  exact ⟨rfl, rfl, rfl, rfl⟩

/-- C2 (amended): when the take-profit trigger fires from an active,
pre-take-profit state and the exit-sell submission succeeds, the transition
to `TakeProfitFilled` goes through whenever `cancel_order` RETURNS — with
any HTTP status code whatsoever (204 cancelled, 404 already gone, or any
broker rejection code) — and also when there is no stop id to cancel; but
when `cancel_order` RAISES (transport failure), `done` is never set: the
monitor stays in `Active` with `tp_filled` already true, so it keeps polling
and can no longer reach `TakeProfitFilled`. -/
theorem tp_transition_unblocked_by_cancel_status (st : LoopState) (e : CycleEnv)
    (px : ℚ) (hd : st.done = false) (hnf : e.stopStatus ≠ some "filled")
    (htp : st.tp_filled = false) (hq : e.quote = some px)
    (hpx : st.tp_price ≤ px) (hsell : e.sellOk = true) :
    (∀ c, e.cancelResult = some c →
      (step st e).1.done = true ∧ (step st e).1.tp_filled = true ∧
      lifecycle (step st e).1 = LState.takeProfitFilled) ∧
    (st.stop_id = none →
      (step st e).1.done = true ∧ (step st e).1.tp_filled = true ∧
      lifecycle (step st e).1 = LState.takeProfitFilled) ∧
    (∀ oid, st.stop_id = some oid → e.cancelResult = none →
      (step st e).1.done = false ∧ (step st e).1.tp_filled = true ∧
      lifecycle (step st e).1 = LState.active) := by
  have htr : st.tp_price ≤ e.quote.getD 0 ∧ st.tp_filled = false := by
    rw [hq]; exact ⟨hpx, htp⟩
  refine ⟨?_, ?_, ?_⟩
  · intro c hc
    rcases hio : st.stop_id with _ | oid
    · rw [step_none st e hio, tpPhase_sell_ok_no_id st e htr hsell hio]
      exact ⟨rfl, rfl, by simp [lifecycle]⟩
    · rw [step_some st e oid hio, if_neg hnf,
        tpPhase_sell_ok_cancel_ret st e oid c htr hsell hio hc]
      exact ⟨rfl, rfl, by simp [lifecycle]⟩
  · intro hio
    rw [step_none st e hio, tpPhase_sell_ok_no_id st e htr hsell hio]
    exact ⟨rfl, rfl, by simp [lifecycle]⟩
  · intro oid hio hc
    rw [step_some st e oid hio, if_neg hnf,
      tpPhase_sell_ok_cancel_raise st e oid htr hsell hio hc]
    exact ⟨hd, rfl, by simp [lifecycle, hd]⟩

/-- C3 counterexample: the DELETE on the stop order returns HTTP 500 — per
`cancel_order`'s own contract (204 = cancelled, 404 = already gone) the stop
was neither cancelled nor gone — yet the monitor still transitions to
`TakeProfitFilled` in that very cycle. The code never inspects the returned
status code, so a terminal `TakeProfitFilled` does not imply the stop order
was successfully cancelled or already gone: it can be left resting. -/
theorem tp_terminal_with_failed_cancel :
    lifecycle (step ⟨"S", 1, 2, 1, 1, some 7, false, false, true⟩
        ⟨some "new", some 2, true, some 500⟩).1 = LState.takeProfitFilled ∧
    (step ⟨"S", 1, 2, 1, 1, some 7, false, false, true⟩
        ⟨some "new", some 2, true, some 500⟩).2 =
      [Event.queryStop 7, Event.sellMarket "S" 1 true,
        Event.cancelAttempt 7 (some 500)] ∧
    (500 : ℕ) ≠ 204 ∧ (500 : ℕ) ≠ 404 := by
  have hs : step ⟨"S", 1, 2, 1, 1, some 7, false, false, true⟩
      ⟨some "new", some 2, true, some 500⟩ =
      (⟨"S", 1, 2, 1, 1, some 7, true, true, true⟩,
        [Event.queryStop 7, Event.sellMarket "S" 1 true,
          Event.cancelAttempt 7 (some 500)]) := by
    rw [step_some _ _ 7 rfl, if_neg (by simp)]
    rw [tpPhase_sell_ok_cancel_ret _ _ 7 500 (by constructor <;> norm_num) rfl rfl rfl]
    rfl
  rw [hs]
  exact ⟨rfl, rfl, by norm_num, by norm_num⟩

/-- C3 (amended): whenever one cycle takes an active, pre-take-profit state
with a stop id to `done` with `tp_filled` set (a `TakeProfitFilled`
terminal), exactly one cancellation attempt on that stop id was made in the
cycle and `cancel_order` returned rather than raised — but its status code
`c` is arbitrary and ignored, so the stop order is only known to have been
asked to cancel, not to be gone. -/
theorem tp_terminal_one_cancel_attempt (st : LoopState) (e : CycleEnv) (oid : ℕ)
    (hd : st.done = false) (hid : st.stop_id = some oid) (htp : st.tp_filled = false)
    (hdn : (step st e).1.done = true) (htpf : (step st e).1.tp_filled = true) :
    ∃ c, e.cancelResult = some c ∧
      (step st e).2.filter isCancelEvent = [Event.cancelAttempt oid (some c)] := by
  by_cases hf : e.stopStatus = some "filled"
  · exfalso
    rw [step_some st e oid hid, if_pos hf] at htpf
    rw [htp] at htpf
    exact Bool.noConfusion htpf
  · rw [step_some st e oid hid, if_neg hf] at hdn htpf ⊢
    by_cases htr : st.tp_price ≤ e.quote.getD 0 ∧ st.tp_filled = false
    · cases hsell : e.sellOk with
      | false =>
        exfalso
        rw [tpPhase_sell_fail st e htr hsell] at htpf
        rw [htp] at htpf
        exact Bool.noConfusion htpf
      | true =>
        rcases hc : e.cancelResult with _ | c
        · exfalso
          rw [tpPhase_sell_ok_cancel_raise st e oid htr hsell hid hc] at hdn
          rw [hd] at hdn
          exact Bool.noConfusion hdn
        · refine ⟨c, rfl, ?_⟩
          rw [tpPhase_sell_ok_cancel_ret st e oid c htr hsell hid hc]
          simp [List.filter_cons]
    · exfalso
      rw [tpPhase_not_triggered st e htr] at htpf
      rw [htp] at htpf
      exact Bool.noConfusion htpf

/-- C4 counterexample: the claim's trigger holds — the quote reaches the
take-profit level while the stop order's status reads "pending" — the exit
sell succeeds, and `cancel_order` raises (transport failure). The cycle does
submit exactly one exit sell and attempts exactly one cancellation, but the
monitor does NOT transition to `TakeProfitFilled`: `done` stays false and
the state stays active, falsifying the claim's transition clause as stated
(the same try/except path the C2 correction documents). -/
theorem tp_trigger_without_transition_on_cancel_raise :
    (step ⟨"P", 2, 2, 1, 1, some 9, false, false, true⟩
        ⟨some "pending", some 3, true, none⟩).2 =
      [Event.queryStop 9, Event.sellMarket "P" 2 true, Event.cancelAttempt 9 none] ∧
    countSellSuccess (step ⟨"P", 2, 2, 1, 1, some 9, false, false, true⟩
        ⟨some "pending", some 3, true, none⟩).2 = 1 ∧
    countCancel (step ⟨"P", 2, 2, 1, 1, some 9, false, false, true⟩
        ⟨some "pending", some 3, true, none⟩).2 = 1 ∧
    (step ⟨"P", 2, 2, 1, 1, some 9, false, false, true⟩
        ⟨some "pending", some 3, true, none⟩).1.done = false ∧
    lifecycle (step ⟨"P", 2, 2, 1, 1, some 9, false, false, true⟩
        ⟨some "pending", some 3, true, none⟩).1 = LState.active ∧
    ¬ lifecycle (step ⟨"P", 2, 2, 1, 1, some 9, false, false, true⟩
        ⟨some "pending", some 3, true, none⟩).1 = LState.takeProfitFilled := by
  have hss : step ⟨"P", 2, 2, 1, 1, some 9, false, false, true⟩
      ⟨some "pending", some 3, true, none⟩ =
      (⟨"P", 2, 2, 1, 1, some 9, true, false, true⟩,
        [Event.queryStop 9, Event.sellMarket "P" 2 true,
          Event.cancelAttempt 9 none]) := by
    rw [step_some _ _ 9 rfl, if_neg (by simp),
      tpPhase_sell_ok_cancel_raise _ _ 9 (by constructor <;> norm_num) rfl rfl rfl]
    rfl
  rw [hss]
  exact ⟨rfl, by simp [countSellSuccess, List.filter_cons, isSellSuccess],
    by simp [countCancel, List.filter_cons, isCancelEvent], rfl, rfl, by decide⟩

/-- C4 (amended): when the quote reaches the take-profit level while the
stop order's status reads anything other than "filled" (e.g. still
pending), no take-profit has been submitted yet and the exit-sell
submission succeeds, the cycle performs exactly one status query, exactly
one exit sell (market when `use_mkt_tp`, else limit at the take-profit
price) and exactly one cancellation attempt of the stop order, in that
order; it transitions to `TakeProfitFilled` — and stops polling — exactly
when the cancellation call returns (with any status code), while a RAISING
cancellation leaves `done` unset: the monitor stays active with `tp_filled`
already true. -/
theorem tp_trigger_single_exit_and_cancel (st : LoopState) (e : CycleEnv)
    (oid : ℕ) (s : String) (px : ℚ) (rest : List CycleEnv)
    (hd : st.done = false) (hid : st.stop_id = some oid) (htp : st.tp_filled = false)
    (hst : e.stopStatus = some s) (hs : s ≠ "filled")
    (hq : e.quote = some px) (hpx : st.tp_price ≤ px) (hsell : e.sellOk = true) :
    (step st e).2 =
      [Event.queryStop oid, sellEvent st true,
        Event.cancelAttempt oid e.cancelResult] ∧
    sellEvent st true = (if st.use_mkt_tp then Event.sellMarket st.symbol st.qty true
      else Event.sellLimit st.symbol st.qty st.tp_price true) ∧
    countSellSuccess (step st e).2 = 1 ∧ countCancel (step st e).2 = 1 ∧
    (step st e).1.tp_filled = true ∧
    (∀ c, e.cancelResult = some c →
      (step st e).1.done = true ∧
      lifecycle (step st e).1 = LState.takeProfitFilled ∧
      run (step st e).1 rest = ((step st e).1, [])) ∧
    (e.cancelResult = none →
      (step st e).1.done = false ∧ lifecycle (step st e).1 = LState.active) := by
  have hnf : e.stopStatus ≠ some "filled" := by
    rw [hst]
    intro hx
    exact hs (Option.some.inj hx)
  have htr : st.tp_price ≤ e.quote.getD 0 ∧ st.tp_filled = false := by
    rw [hq]; exact ⟨hpx, htp⟩
  rcases hc : e.cancelResult with _ | c
  · have hss : step st e =
        ({ st with tp_filled := true },
          [Event.queryStop oid, sellEvent st true,
            Event.cancelAttempt oid none]) := by
      rw [step_some st e oid hid, if_neg hnf,
        tpPhase_sell_ok_cancel_raise st e oid htr hsell hid hc]
    rw [hss]
    refine ⟨rfl, rfl, ?_, ?_, rfl, ?_, ?_⟩
    · simp [countSellSuccess, List.filter_cons]
    · simp [countCancel, List.filter_cons]
    · intro c2 hcc; exact Option.noConfusion hcc
    · intro _; exact ⟨hd, by simp [lifecycle, hd]⟩
  · have hss : step st e =
        ({ st with tp_filled := true, done := true },
          [Event.queryStop oid, sellEvent st true,
            Event.cancelAttempt oid (some c)]) := by
      rw [step_some st e oid hid, if_neg hnf,
        tpPhase_sell_ok_cancel_ret st e oid c htr hsell hid hc]
    rw [hss]
    refine ⟨rfl, rfl, ?_, ?_, rfl, ?_, ?_⟩
    · simp [countSellSuccess, List.filter_cons]
    · simp [countCancel, List.filter_cons]
    · intro c2 hcc
      exact ⟨rfl, by simp [lifecycle], run_of_done _ rest rfl⟩
    · intro hcc; exact Option.noConfusion hcc

theorem start_monitor_monitor_eq (sym : String) (qty : ℕ) (fp tm sm : ℚ)
    (b : Bool) (sid : Option ℕ) (hfp : 0 < fp) :
    (start_monitor sym qty fp tm sm b (Except.ok sid)).monitor =
      some ⟨sym, qty, fp, round2 (fp * tm), max (1/100) (round2 (fp * sm)), sid,
        false, false, b⟩ := by
  unfold start_monitor
  rw [if_pos hfp]

/-- C5: over any finite prefix of a monitor run started from a state in
which no take-profit has been submitted (`tp_filled = false`, as in every
state `start_monitor` spawns), at most one exit-sell submission ever
succeeds; and whenever some cycle's submission does succeed — e.g. after any
number of failed attempts in earlier cycles — the total number of successful
exit-sell submissions is exactly one. -/
theorem at_most_one_tp_submission (st : LoopState) (envs : List CycleEnv)
    (htp : st.tp_filled = false) :
    countSellSuccess (run st envs).2 ≤ 1 ∧
    (∀ ev ∈ (run st envs).2, isSellSuccess ev = true →
      countSellSuccess (run st envs).2 = 1) := by
  refine ⟨run_sell_le_one envs st, ?_⟩
  intro ev hmem hsucc
  have hle := run_sell_le_one envs st
  have hmem2 : ev ∈ (run st envs).2.filter isSellSuccess :=
    List.mem_filter.mpr ⟨hmem, hsucc⟩
  have hpos : 0 < countSellSuccess (run st envs).2 := by
    unfold countSellSuccess
    exact List.length_pos.mpr (fun hnil => List.not_mem_nil ev (hnil ▸ hmem2))
  omega

theorem step_unavailable (st : LoopState) (e : CycleEnv) (htp : 0 < st.tp_price)
    (hq : e.quote = none) (hnf : e.stopStatus ≠ some "filled") :
    (step st e).1 = st ∧ ∀ ev ∈ (step st e).2, isQueryEvent ev = true := by
  have hng : ¬ (st.tp_price ≤ e.quote.getD 0 ∧ st.tp_filled = false) := by
    rintro ⟨hle, -⟩
    rw [hq] at hle
    simp only [Option.getD_none] at hle
    exact absurd (lt_of_lt_of_le htp hle) (lt_irrefl 0)
  rcases hid : st.stop_id with _ | oid
  · rw [step_none st e hid, tpPhase_not_triggered st e hng]
    exact ⟨rfl, by intro ev hev; exact absurd hev (List.not_mem_nil ev)⟩
  · rw [step_some st e oid hid, if_neg hnf, tpPhase_not_triggered st e hng]
    refine ⟨rfl, ?_⟩
    intro ev hev
    rcases List.mem_cons.mp hev with h | h
    · rw [h]; rfl
    · exact absurd h (List.not_mem_nil ev)

/-- C6 (amended): as long as `take_profit_price` is positive (the spec's
data model requires positive price levels), any number of consecutive cycles
whose quote fetch comes back unavailable — with the stop order not reported
"filled" — leaves the monitor's state literally unchanged and still
`Active`, performs no exit-sell submission and no cancellation (the only
calls are status queries of the stop order), and raises nothing: the
monitor just keeps polling. The positivity proviso is forced by the
counterexample of a zero take-profit level. -/
theorem unavailable_quotes_are_noops (st : LoopState) (envs : List CycleEnv)
    (htp : 0 < st.tp_price) (hd : st.done = false)
    (h : ∀ e ∈ envs, e.quote = none ∧ e.stopStatus ≠ some "filled") :
    (run st envs).1 = st ∧
    (∀ ev ∈ (run st envs).2, isQueryEvent ev = true) ∧
    lifecycle (run st envs).1 = LState.active := by
  induction envs with
  | nil =>
    refine ⟨rfl, by intro ev hev; exact absurd hev (List.not_mem_nil ev), ?_⟩
    show lifecycle st = LState.active
    simp [lifecycle, hd]
  | cons e es ih =>
    have he := h e (List.mem_cons_self e es)
    have hstep := step_unavailable st e htp he.1 he.2
    have hrun : run st (e :: es) =
        ((run st es).1, (step st e).2 ++ (run st es).2) := by
      rw [run_cons st e es hd, hstep.1]
    have htail := ih (fun x hx => h x (List.mem_cons_of_mem e hx))
    refine ⟨by rw [hrun]; exact htail.1, ?_, by rw [hrun]; exact htail.2.2⟩
    intro ev hev
    rw [hrun] at hev
    rcases List.mem_append.mp hev with hx | hx
    · exact hstep.2 ev hx
    · exact htail.2.1 ev hx

/-- C6 counterexample: `start_monitor` with `fill_price = 0.01` and
`take_profit_mult = 0.1` (both pass its validation) computes
`tp_price = round(0.001, 2) = 0.0`. In the very first cycle the quote fetch
returns unavailable, which the loop turns into `px = 0.0`; since
`0.0 >= 0.0`, the "skipped" trigger fires anyway: the monitor submits a
market exit sell, cancels the stop and transitions — falsifying the claim
that unavailable-quote cycles never transition state nor submit an exit
order. -/
theorem unavailable_quote_fires_tp_at_zero_level :
    (start_monitor "X" 1 (1/100) (1/10) 1 true (Except.ok (some 7))).monitor =
      some ⟨"X", 1, 1/100, 0, 1/100, some 7, false, false, true⟩ ∧
    (step ⟨"X", 1, 1/100, 0, 1/100, some 7, false, false, true⟩
        ⟨some "new", none, true, some 204⟩).1.done = true ∧
    (step ⟨"X", 1, 1/100, 0, 1/100, some 7, false, false, true⟩
        ⟨some "new", none, true, some 204⟩).1.tp_filled = true ∧
    lifecycle (step ⟨"X", 1, 1/100, 0, 1/100, some 7, false, false, true⟩
        ⟨some "new", none, true, some 204⟩).1 = LState.takeProfitFilled ∧
    (step ⟨"X", 1, 1/100, 0, 1/100, some 7, false, false, true⟩
        ⟨some "new", none, true, some 204⟩).2 =
      [Event.queryStop 7, Event.sellMarket "X" 1 true,
        Event.cancelAttempt 7 (some 204)] := by
  have hmon := start_monitor_monitor_eq "X" 1 (1/100) (1/10) 1 true (some 7)
    (by norm_num)
  have hvals : round2 ((1:ℚ)/100 * (1/10)) = 0 ∧
      max ((1:ℚ)/100) (round2 ((1:ℚ)/100 * 1)) = 1/100 := by
    constructor <;> norm_num [round2, roundHalfEven]
  rw [hvals.1, hvals.2] at hmon
  have hs : step ⟨"X", 1, 1/100, 0, 1/100, some 7, false, false, true⟩
      ⟨some "new", none, true, some 204⟩ =
      (⟨"X", 1, 1/100, 0, 1/100, some 7, true, true, true⟩,
        [Event.queryStop 7, Event.sellMarket "X" 1 true,
          Event.cancelAttempt 7 (some 204)]) := by
    rw [step_some _ _ 7 rfl, if_neg (by simp)]
    rw [tpPhase_sell_ok_cancel_ret _ _ 7 204 (by constructor <;> norm_num) rfl rfl rfl]
    rfl
  rw [hs]
  exact ⟨hmon, rfl, rfl, rfl, rfl⟩

/-- C7: for every positive fill price and positive multipliers, a
supervision start whose stop placement succeeds returns a handle carrying
`take_profit_price = round(entry_price*take_profit_mult, 2)` and
`stop_price = max(0.01, round(entry_price*stop_mult, 2))`; instantiated at
`entry_price = 2.00`, `stop_mult = 0.50`, `take_profit_mult = 1.90` this
yields `stop_price = 1.00` and `take_profit_price = 3.80`. -/
theorem start_monitor_price_formulas (sym : String) (qty : ℕ) (fp tm sm : ℚ)
    (b : Bool) (sid : Option ℕ) (hfp : 0 < fp) (hsm : 0 < sm) (htm : 0 < tm) :
    (start_monitor sym qty fp tm sm b (Except.ok sid)).result =
      Except.ok ⟨true, sid, round2 (fp * tm), max (1/100) (round2 (fp * sm))⟩ ∧
    (start_monitor sym qty 2 (19/10) (1/2) b (Except.ok sid)).result =
      Except.ok ⟨true, sid, 19/5, 1⟩ := by
  constructor
  · unfold start_monitor
    rw [if_pos hfp]
  · unfold start_monitor
    rw [if_pos (by norm_num : (0:ℚ) < 2)]
    have h1 : round2 ((2:ℚ) * (19/10)) = 19/5 := by norm_num [round2, roundHalfEven]
    have h2 : max ((1:ℚ)/100) (round2 ((2:ℚ) * (1/2))) = 1 := by
      norm_num [round2, roundHalfEven]
    rw [h1, h2]

/-- C8: `start_monitor` fails synchronously in exactly two cases — a
non-positive fill price, rejected by the assert (`InvalidInput`) before the
stop order is submitted; and a failing protective-stop submission, whose
broker error propagates with no monitoring thread started — and in every
other case it submits the stop and returns the success handle carrying the
stop order id, the take-profit level and the stop level, with the monitoring
thread spawned. -/
theorem start_monitor_failure_modes (sym : String) (qty : ℕ) (fp tm sm : ℚ)
    (b : Bool) (resp : Except BrokerErr (Option ℕ)) :
    (¬ 0 < fp →
      (start_monitor sym qty fp tm sm b resp).result =
        Except.error StartErr.invalidInput ∧
      (start_monitor sym qty fp tm sm b resp).stopSubmitted = false ∧
      (start_monitor sym qty fp tm sm b resp).monitor = none) ∧
    (∀ be, 0 < fp → resp = Except.error be →
      (start_monitor sym qty fp tm sm b resp).result =
        Except.error (StartErr.broker be) ∧
      (start_monitor sym qty fp tm sm b resp).stopSubmitted = true ∧
      (start_monitor sym qty fp tm sm b resp).monitor = none) ∧
    (∀ sid, 0 < fp → resp = Except.ok sid →
      (start_monitor sym qty fp tm sm b resp).result =
        Except.ok ⟨true, sid, round2 (fp * tm), max (1/100) (round2 (fp * sm))⟩ ∧
      (start_monitor sym qty fp tm sm b resp).stopSubmitted = true ∧
      (start_monitor sym qty fp tm sm b resp).monitor =
        some ⟨sym, qty, fp, round2 (fp * tm), max (1/100) (round2 (fp * sm)), sid,
          false, false, b⟩) := by
  refine ⟨?_, ?_, ?_⟩
  · intro h
    unfold start_monitor
    rw [if_neg h]
    exact ⟨rfl, rfl, rfl⟩
  · intro be h hr
    subst hr
    unfold start_monitor
    rw [if_pos h]
    exact ⟨rfl, rfl, rfl⟩
  · intro sid h hr
    subst hr
    unfold start_monitor
    rw [if_pos h]
    exact ⟨rfl, rfl, rfl⟩

/-- C9 counterexample: a quote with `bid = 0.012` and `ask = 0.02` has exact
midpoint `(bid+ask)/2 = 0.016`, but `mid_or_last` returns
`round(0.016, 2) = 0.02`: the quote client's reference price is the ROUNDED
midpoint, not `(bid+ask)/2` itself as the claim states. -/
theorem reference_price_not_exact_midpoint :
    mid_or_last (some ⟨12/1000, 1/50, 0⟩) = some (1/50) ∧
    ((12/1000 : ℚ) + 1/50) / 2 = 2/125 ∧
    ¬ ((1:ℚ)/50 = 2/125) := by
  refine ⟨?_, by norm_num, by norm_num⟩
  have h : round2 (((12/1000 : ℚ) + 1/50) / 2) = 1/50 := by
    norm_num [round2, roundHalfEven]
  show (if 0 < (12/1000 : ℚ) ∧ 0 < (1/50 : ℚ) then
      some (round2 (((12/1000 : ℚ) + 1/50) / 2))
    else if 0 < (0 : ℚ) then some (round2 (0 : ℚ)) else none) = some (1/50)
  rw [if_pos (by constructor <;> norm_num), h]

/-- C9 (amended): the reference price is `round((bid+ask)/2, 2)` when both
bid and ask are positive, else `round(last, 2)` when the last trade price is
positive, else unavailable; and any fetch/parse failure (the `none` input)
is unavailable rather than an exception. -/
theorem mid_or_last_rounds (q : TradierQuote) :
    (0 < q.bid ∧ 0 < q.ask →
      mid_or_last (some q) = some (round2 ((q.bid + q.ask) / 2))) ∧
    (¬ (0 < q.bid ∧ 0 < q.ask) → 0 < q.last →
      mid_or_last (some q) = some (round2 q.last)) ∧
    (¬ (0 < q.bid ∧ 0 < q.ask) → ¬ 0 < q.last → mid_or_last (some q) = none) ∧
    mid_or_last none = none := by
  refine ⟨?_, ?_, ?_, rfl⟩
  · intro h
    show (if 0 < q.bid ∧ 0 < q.ask then some (round2 ((q.bid + q.ask) / 2))
      else if 0 < q.last then some (round2 q.last) else none) =
      some (round2 ((q.bid + q.ask) / 2))
    rw [if_pos h]
  · intro h hl
    show (if 0 < q.bid ∧ 0 < q.ask then some (round2 ((q.bid + q.ask) / 2))
      else if 0 < q.last then some (round2 q.last) else none) =
      some (round2 q.last)
    rw [if_neg h, if_pos hl]
  · intro h hl
    show (if 0 < q.bid ∧ 0 < q.ask then some (round2 ((q.bid + q.ask) / 2))
      else if 0 < q.last then some (round2 q.last) else none) = none
    rw [if_neg h, if_neg hl]

theorem step_none_events (st : LoopState) (e : CycleEnv) (hid : st.stop_id = none) :
    ∀ ev ∈ (step st e).2, isQueryEvent ev = false ∧ isCancelEvent ev = false := by
  rw [step_none st e hid]
  by_cases htr : st.tp_price ≤ e.quote.getD 0 ∧ st.tp_filled = false
  · cases hsell : e.sellOk with
    | false =>
      rw [tpPhase_sell_fail st e htr hsell]
      intro ev hev
      rcases List.mem_cons.mp hev with h | h
      · rw [h]; simp
      · exact absurd h (List.not_mem_nil ev)
    | true =>
      rw [tpPhase_sell_ok_no_id st e htr hsell hid]
      intro ev hev
      rcases List.mem_cons.mp hev with h | h
      · rw [h]; simp
      · exact absurd h (List.not_mem_nil ev)
  · rw [tpPhase_not_triggered st e htr]
    intro ev hev
    exact absurd hev (List.not_mem_nil ev)

theorem step_none_done (st : LoopState) (e : CycleEnv) (hid : st.stop_id = none)
    (h : (step st e).1.done = true) :
    st.done = true ∨ (step st e).1.tp_filled = true := by
  rw [step_none st e hid] at h ⊢
  by_cases htr : st.tp_price ≤ e.quote.getD 0 ∧ st.tp_filled = false
  · cases hsell : e.sellOk with
    | false =>
      rw [tpPhase_sell_fail st e htr hsell] at h
      exact Or.inl h
    | true =>
      rw [tpPhase_sell_ok_no_id st e htr hsell hid]
      exact Or.inr rfl
  · rw [tpPhase_not_triggered st e htr] at h
    exact Or.inl h

theorem run_none_events (envs : List CycleEnv) : ∀ st : LoopState,
    st.stop_id = none →
    ∀ ev ∈ (run st envs).2, isQueryEvent ev = false ∧ isCancelEvent ev = false := by
  induction envs with
  | nil =>
    intro st _ ev hev
    exact absurd hev (List.not_mem_nil ev)
  | cons e es ih =>
    intro st hid ev hev
    unfold run at hev
    by_cases hd : st.done = true
    · rw [if_pos hd] at hev
      exact absurd hev (List.not_mem_nil ev)
    · rw [if_neg hd] at hev
      rcases List.mem_append.mp hev with hx | hx
      · exact step_none_events st e hid ev hx
      · exact ih (step st e).1 (by rw [step_stop_id]; exact hid) ev hx

theorem run_none_done_tp (envs : List CycleEnv) : ∀ st : LoopState,
    st.stop_id = none → (st.done = true → st.tp_filled = true) →
    ((run st envs).1.done = true → (run st envs).1.tp_filled = true) := by
  induction envs with
  | nil => intro st _ hinv; exact hinv
  | cons e es ih =>
    intro st hid hinv
    unfold run
    by_cases hd : st.done = true
    · rw [if_pos hd]; exact hinv
    · rw [if_neg hd]
      refine ih (step st e).1 (by rw [step_stop_id]; exact hid) ?_
      intro hdn
      rcases step_none_done st e hid hdn with hx | hx
      · exact absurd hx hd
      · exact hx

/-- C10: when the broker's response to the stop-sell submission carries no
"id", `start_monitor` still returns a success handle with `stop_id = None`,
and the spawned monitor — over any finite run — never queries any order
status and never attempts any cancellation (every recorded broker call is an
exit-sell submission); moreover it can only ever reach `done` through the
take-profit branch (`done` implies `tp_filled`), making the take-profit
trigger the only exit condition the monitor can detect. -/
theorem missing_stop_id_monitor (sym : String) (qty : ℕ) (fp tm sm : ℚ) (b : Bool)
    (envs : List CycleEnv) (hfp : 0 < fp) :
    (start_monitor sym qty fp tm sm b (Except.ok none)).result =
      Except.ok ⟨true, none, round2 (fp * tm), max (1/100) (round2 (fp * sm))⟩ ∧
    ∃ st0, (start_monitor sym qty fp tm sm b (Except.ok none)).monitor = some st0 ∧
      st0.stop_id = none ∧
      (∀ ev ∈ (run st0 envs).2, isQueryEvent ev = false ∧ isCancelEvent ev = false) ∧
      ((run st0 envs).1.done = true → (run st0 envs).1.tp_filled = true) := by
  constructor
  · unfold start_monitor
    rw [if_pos hfp]
  · refine ⟨⟨sym, qty, fp, round2 (fp * tm), max (1/100) (round2 (fp * sm)), none,
      false, false, b⟩, start_monitor_monitor_eq sym qty fp tm sm b none hfp, rfl,
      ?_, ?_⟩
    · exact run_none_events envs _ rfl
    · exact run_none_done_tp envs _ rfl (fun hx => Bool.noConfusion hx)

/-! ### Witnesses: the claim theorems applied at concrete inputs -/

/-- Witness for the amended C1 at a concrete state and cycle. -/
theorem stop_fill_detected_terminates_witness :
    (step ⟨"S", 1, 2, 19/5, 1, some 7, false, false, true⟩
        ⟨some "filled", some 100, true, some 204⟩).1.done = true ∧
    lifecycle (step ⟨"S", 1, 2, 19/5, 1, some 7, false, false, true⟩
        ⟨some "filled", some 100, true, some 204⟩).1 = LState.stopFilled ∧
    (step ⟨"S", 1, 2, 19/5, 1, some 7, false, false, true⟩
        ⟨some "filled", some 100, true, some 204⟩).2 = [Event.queryStop 7] := by
  have h := stop_fill_detected_terminates
    ⟨"S", 1, 2, 19/5, 1, some 7, false, false, true⟩
    ⟨some "filled", some 100, true, some 204⟩ 7
    [⟨some "new", some 100, true, some 204⟩] rfl rfl
  exact ⟨h.1, h.2.2.2.2.1 rfl, h.2.1⟩

/-- Witness for the amended C2 at concrete inputs: a 404 "already gone"
cancel result does not block the transition; a raising cancel does. -/
theorem tp_transition_unblocked_by_cancel_status_witness :
    ((step ⟨"S", 1, 2, 1, 1, some 7, false, false, true⟩
        ⟨some "new", some 2, true, some 404⟩).1.done = true ∧
      lifecycle (step ⟨"S", 1, 2, 1, 1, some 7, false, false, true⟩
        ⟨some "new", some 2, true, some 404⟩).1 = LState.takeProfitFilled) ∧
    ((step ⟨"S", 1, 2, 1, 1, some 7, false, false, true⟩
        ⟨some "new", some 2, true, none⟩).1.done = false ∧
      (step ⟨"S", 1, 2, 1, 1, some 7, false, false, true⟩
        ⟨some "new", some 2, true, none⟩).1.tp_filled = true) := by
  have h1 := tp_transition_unblocked_by_cancel_status
    ⟨"S", 1, 2, 1, 1, some 7, false, false, true⟩
    ⟨some "new", some 2, true, some 404⟩ 2 rfl (by simp) rfl rfl (by norm_num) rfl
  have h2 := tp_transition_unblocked_by_cancel_status
    ⟨"S", 1, 2, 1, 1, some 7, false, false, true⟩
    ⟨some "new", some 2, true, none⟩ 2 rfl (by simp) rfl rfl (by norm_num) rfl
  exact ⟨⟨(h1.1 404 rfl).1, (h1.1 404 rfl).2.2⟩,
    ⟨(h2.2.2 7 rfl rfl).1, (h2.2.2 7 rfl rfl).2.1⟩⟩

/-- Witness for the amended C3 at a concrete input. -/
theorem tp_terminal_one_cancel_attempt_witness :
    ∃ c, (⟨some "new", some 2, true, some 204⟩ : CycleEnv).cancelResult = some c ∧
      (step ⟨"S", 1, 2, 1, 1, some 7, false, false, true⟩
        ⟨some "new", some 2, true, some 204⟩).2.filter isCancelEvent =
        [Event.cancelAttempt 7 (some c)] := by
  refine tp_terminal_one_cancel_attempt
    ⟨"S", 1, 2, 1, 1, some 7, false, false, true⟩
    ⟨some "new", some 2, true, some 204⟩ 7 rfl rfl rfl ?_ ?_
  · rw [step_some _ _ 7 rfl, if_neg (by simp),
      tpPhase_sell_ok_cancel_ret _ _ 7 204 (by constructor <;> norm_num) rfl rfl rfl]
  · rw [step_some _ _ 7 rfl, if_neg (by simp),
      tpPhase_sell_ok_cancel_ret _ _ 7 204 (by constructor <;> norm_num) rfl rfl rfl]

/-- Witness for the amended C4: the returning-cancel cycle transitions with
exactly one exit sell and one cancellation; the raising-cancel cycle does
not set `done`. -/
theorem tp_trigger_single_exit_and_cancel_witness :
    (step ⟨"S", 2, 2, 19/5, 1, some 7, false, false, true⟩
        ⟨some "pending", some 4, true, some 204⟩).1.done = true ∧
    lifecycle (step ⟨"S", 2, 2, 19/5, 1, some 7, false, false, true⟩
        ⟨some "pending", some 4, true, some 204⟩).1 = LState.takeProfitFilled ∧
    countSellSuccess (step ⟨"S", 2, 2, 19/5, 1, some 7, false, false, true⟩
        ⟨some "pending", some 4, true, some 204⟩).2 = 1 ∧
    countCancel (step ⟨"S", 2, 2, 19/5, 1, some 7, false, false, true⟩
        ⟨some "pending", some 4, true, some 204⟩).2 = 1 ∧
    (step ⟨"S", 2, 2, 19/5, 1, some 7, false, false, true⟩
        ⟨some "pending", some 4, true, none⟩).1.done = false := by
  have h := tp_trigger_single_exit_and_cancel
    ⟨"S", 2, 2, 19/5, 1, some 7, false, false, true⟩
    ⟨some "pending", some 4, true, some 204⟩ 7 "pending" 4
    [] rfl rfl rfl rfl (by simp) rfl (by norm_num) rfl
  have h2 := tp_trigger_single_exit_and_cancel
    ⟨"S", 2, 2, 19/5, 1, some 7, false, false, true⟩
    ⟨some "pending", some 4, true, none⟩ 7 "pending" 4
    [] rfl rfl rfl rfl (by simp) rfl (by norm_num) rfl
  exact ⟨(h.2.2.2.2.2.1 204 rfl).1, (h.2.2.2.2.2.1 204 rfl).2.1,
    h.2.2.1, h.2.2.2.1, (h2.2.2.2.2.2.2 rfl).1⟩

/-- Witness for C5 on a concrete fail-then-succeed trace: exactly one exit
sell ultimately succeeds. -/
theorem at_most_one_tp_submission_witness :
    countSellSuccess (run ⟨"S", 1, 2, 1, 1, some 7, false, false, true⟩
      [⟨some "new", some 2, false, some 204⟩,
        ⟨some "new", some 2, true, some 204⟩]).2 ≤ 1 ∧
    countSellSuccess (run ⟨"S", 1, 2, 1, 1, some 7, false, false, true⟩
      [⟨some "new", some 2, false, some 204⟩,
        ⟨some "new", some 2, true, some 204⟩]).2 = 1 := by
  have h := at_most_one_tp_submission
    ⟨"S", 1, 2, 1, 1, some 7, false, false, true⟩
    [⟨some "new", some 2, false, some 204⟩, ⟨some "new", some 2, true, some 204⟩] rfl
  refine ⟨h.1, ?_⟩
  have h1 : step ⟨"S", 1, 2, 1, 1, some 7, false, false, true⟩
      ⟨some "new", some 2, false, some 204⟩ =
      (⟨"S", 1, 2, 1, 1, some 7, false, false, true⟩,
        [Event.queryStop 7, Event.sellMarket "S" 1 false]) := by
    rw [step_some _ _ 7 rfl, if_neg (by simp),
      tpPhase_sell_fail _ _ (by constructor <;> norm_num) rfl]
    rfl
  have h2 : step ⟨"S", 1, 2, 1, 1, some 7, false, false, true⟩
      ⟨some "new", some 2, true, some 204⟩ =
      (⟨"S", 1, 2, 1, 1, some 7, true, true, true⟩,
        [Event.queryStop 7, Event.sellMarket "S" 1 true,
          Event.cancelAttempt 7 (some 204)]) := by
    rw [step_some _ _ 7 rfl, if_neg (by simp),
      tpPhase_sell_ok_cancel_ret _ _ 7 204 (by constructor <;> norm_num) rfl rfl rfl]
    rfl
  rw [run_cons _ _ _ rfl, h1, run_cons _ _ _ rfl, h2,
    run_of_done _ _ rfl]
  simp [countSellSuccess, List.filter_cons, isSellSuccess]

/-- Witness for the amended C6 on a two-cycle unavailable-quote trace. -/
theorem unavailable_quotes_are_noops_witness :
    (run ⟨"S", 1, 2, 19/5, 1, some 7, false, false, true⟩
      [⟨some "new", none, true, some 204⟩, ⟨none, none, false, none⟩]).1 =
      ⟨"S", 1, 2, 19/5, 1, some 7, false, false, true⟩ ∧
    lifecycle (run ⟨"S", 1, 2, 19/5, 1, some 7, false, false, true⟩
      [⟨some "new", none, true, some 204⟩, ⟨none, none, false, none⟩]).1 =
      LState.active := by
  have h := unavailable_quotes_are_noops
    ⟨"S", 1, 2, 19/5, 1, some 7, false, false, true⟩
    [⟨some "new", none, true, some 204⟩, ⟨none, none, false, none⟩]
    (by norm_num) rfl ?_
  · exact ⟨h.1, h.2.2⟩
  · intro x hx
    rcases List.mem_cons.mp hx with hx1 | hx2
    · rw [hx1]; exact ⟨rfl, by simp⟩
    · rcases List.mem_cons.mp hx2 with hx3 | hx4
      · rw [hx3]; exact ⟨rfl, by simp⟩
      · exact absurd hx4 (List.not_mem_nil x)

/-- Witness for C7 at `entry_price = 2.00`, `take_profit_mult = 1.90`,
`stop_mult = 0.50`. -/
theorem start_monitor_price_formulas_witness :
    (start_monitor "OCC" 1 2 (19/10) (1/2) true (Except.ok (some 5))).result =
      Except.ok ⟨true, some 5, 19/5, 1⟩ := by
  exact (start_monitor_price_formulas "OCC" 1 2 (19/10) (1/2) true (some 5)
    (by norm_num) (by norm_num) (by norm_num)).2

/-- Witness for C8: the three start outcomes at concrete inputs. -/
theorem start_monitor_failure_modes_witness :
    (start_monitor "X" 1 (-1) (19/10) (1/2) true (Except.ok (some 3))).result =
      Except.error StartErr.invalidInput ∧
    (start_monitor "X" 1 (-1) (19/10) (1/2) true
        (Except.ok (some 3))).stopSubmitted = false ∧
    (start_monitor "X" 1 2 (19/10) (1/2) true
        (Except.error BrokerErr.rejected)).result =
      Except.error (StartErr.broker BrokerErr.rejected) ∧
    (start_monitor "X" 1 2 (19/10) (1/2) true
        (Except.ok (some 3))).stopSubmitted = true := by
  have h1 := (start_monitor_failure_modes "X" 1 (-1) (19/10) (1/2) true
    (Except.ok (some 3))).1 (by norm_num)
  have h2 := (start_monitor_failure_modes "X" 1 2 (19/10) (1/2) true
    (Except.error BrokerErr.rejected)).2.1 BrokerErr.rejected (by norm_num) rfl
  have h3 := (start_monitor_failure_modes "X" 1 2 (19/10) (1/2) true
    (Except.ok (some 3))).2.2 (some 3) (by norm_num) rfl
  exact ⟨h1.1, h1.2.1, h2.1, h3.2.1⟩

/-- Witness for the amended C9 on the three quote shapes. -/
theorem mid_or_last_rounds_witness :
    mid_or_last (some ⟨1, 2, 0⟩) = some (round2 ((1 + 2) / 2)) ∧
    mid_or_last (some ⟨0, 2, 3⟩) = some (round2 3) ∧
    mid_or_last (some ⟨0, 2, 0⟩) = none := by
  have h1 := (mid_or_last_rounds ⟨1, 2, 0⟩).1
    ⟨by show (0:ℚ) < 1; norm_num, by show (0:ℚ) < 2; norm_num⟩
  have h2 := (mid_or_last_rounds ⟨0, 2, 3⟩).2.1
    (by rintro ⟨hb, -⟩; exact absurd hb (by norm_num))
    (by show (0:ℚ) < 3; norm_num)
  have h3 := (mid_or_last_rounds ⟨0, 2, 0⟩).2.2.1
    (by rintro ⟨hb, -⟩; exact absurd hb (by norm_num))
    (by show ¬ (0:ℚ) < 0; norm_num)
  exact ⟨h1, h2, h3⟩

/-- Witness for C10 at a concrete start and a one-cycle run. -/
theorem missing_stop_id_monitor_witness :
    (start_monitor "X" 1 2 (19/10) (1/2) true (Except.ok none)).result =
      Except.ok ⟨true, none, round2 (2 * (19/10)),
        max (1/100) (round2 (2 * (1/2)))⟩ ∧
    ∃ st0, (start_monitor "X" 1 2 (19/10) (1/2) true
        (Except.ok none)).monitor = some st0 ∧ st0.stop_id = none := by
  have h := missing_stop_id_monitor "X" 1 2 (19/10) (1/2) true
    [⟨some "new", some 5, true, some 204⟩] (by norm_num)
  obtain ⟨st0, hmon, hid, -, -⟩ := h.2
  exact ⟨h.1, ⟨st0, hmon, hid⟩⟩

end WeatherPulse
